import Mathlib

/-!
Shallow embedding of `raw_downloader.py` (u1and0/raw_downloader).

The script downloads every chapter of a manga title as PDFs.  Network,
browser rendering and the filesystem are external effects; they are
modelled by explicit oracles passed as arguments:

* `resp : String → Nat` — the HTTP status code `requests.get(url)` returns
  for a given url;
* `fname : String → String` — the (random) scratch filename `fetch_image`
  chooses for a url (a non-empty path under the scratch directory);
* `decodable : String → Bool` — whether `PIL.Image.open` succeeds on a
  downloaded file;
* `chErr : String → Option PyError` — whether processing one chapter url
  raises, used only to model exception propagation through the
  per-chapter loop of `download`.

Python exceptions are modelled with `Except` / an error field; the
distinct exception classes that matter appear as constructors of
`PyError`.
-/

namespace RawDownloader

/-- Python exceptions raised by the script. -/
inductive PyError
  | valueError (msg : String)
  | indexError
  | unboundLocalError
deriving DecidableEq, Repr

/-- Python list slicing `xs[:stop]` for an integer stop index:
a non-negative stop takes the first `stop` elements (clamped to the
length), a negative stop takes all but the last `-stop` elements
(empty when `-stop` exceeds the length). -/
def sliceTo {α : Type} (xs : List α) (stop : Int) : List α :=
  if 0 ≤ stop then xs.take stop.toNat
  else xs.take (xs.length - (-stop).toNat)

/-- `fetch_image(url, save_dir)`: `requests.get(url)`; on a status code
other than 200 it returns `None`; otherwise it writes the body to a fresh
random filename in the scratch directory and returns that (non-empty)
path. -/
def fetch_image (resp : String → Nat) (fname : String → String)
    (url : String) : Option String :=
  if resp url ≠ 200 then none
  else some (fname url)

/-- `download_images(links, save_dir)`: fetches each link in order and
collects the paths of the successful fetches (a returned path is a
non-empty string, hence truthy). -/
def download_images (resp : String → Nat) (fname : String → String)
    (links : List String) : List String :=
  match links with
  | [] => []
  | link :: rest =>
    match fetch_image resp fname link with
    | some img_file => img_file :: download_images resp fname rest
    | none => download_images resp fname rest

/-- Outcome of `images_to_pdf`: the pages of the written document (none
when no document was produced), whether the input scratch files were
deleted, and the exception raised, if any. -/
structure PdfResult where
  doc : Option (List String)
  filesRemoved : Bool
  err : Option PyError
deriving DecidableEq, Repr

/-- `images_to_pdf(files, pdf_filepath)`: opens each file as an image,
skipping (with a printed diagnostic) each file that fails to decode;
then `images[0].save(..., append_images=images[1:])` writes all decoded
images, in order, as the pages of one PDF — when no file decoded,
`images[0]` raises `IndexError` and neither the save nor the final
`os.remove` loop runs.  (A save succeeding is assumed; only the decode
step is fallible in the model.) -/
def images_to_pdf (decodable : String → Bool) (files : List String) :
    PdfResult :=
  let images := files.filter decodable
  if images.isEmpty then
    { doc := none, filesRemoved := false, err := some .indexError }
  else
    { doc := some images, filesRemoved := true, err := none }

/-- An `<option>` element of the chapter select box; `value` is its
`value` attribute (a chapter url). -/
structure OptionTag where
  value : String
deriving DecidableEq, Repr

/-- Which downloader class `main` instantiates. -/
inductive Adapter
  | mangakomaOrg
  | mangakoma01Net
  | mangakomaOnl
deriving DecidableEq, Repr

namespace Mangakoma01NetDownloader

/-- `_get_story_urls(soup)`: the `value` attribute of every `option`
under the chapter-select element, in rendered (site-native, newest-first)
order.  The soup is abstracted to the list of option elements the
selector finds. -/
def get_story_urls (options : List OptionTag) : List String :=
  options.map OptionTag.value

/-- `os.makedirs(out_dir, exist_ok=False)` wrapped in
`try: ... except FileExistsError: pass` — creating the output directory
never raises, whether or not the directory already exists. -/
def makedirs (_dir_already_there : Bool) : Except PyError Unit :=
  .ok ()

/-- The chapter-url selection of `download`:
`skip_file_num *= -1`, then
`reversed(all_story_urls) if skip_file_num == 0 else
 reversed(all_story_urls[:skip_file_num])`.
Returns the chapter urls in the order they are passed to
`_fetch_content_create_pdf`. -/
def process_urls (all_story_urls : List String) (skip_file_num : Int) :
    List String :=
  let s := skip_file_num * (-1)
  if s = 0 then all_story_urls.reverse
  else (sliceTo all_story_urls s).reverse

/-- The per-chapter loop `for url in urls: self._fetch_content_create_pdf
(url, out_dir)`: chapters are processed strictly in order and the first
exception propagates, aborting the rest of the run.  `chErr` tells
whether processing a given chapter url raises.  The model returns the
list of chapter urls that were fully processed (the Python method
returns `None`; the list is the specification-level observable). -/
def run_chapters (chErr : String → Option PyError) :
    List String → Except PyError (List String)
  | [] => .ok []
  | u :: us =>
    match chErr u with
    | some e => .error e
    | none =>
      match run_chapters chErr us with
      | .error e => .error e
      | .ok rest => .ok (u :: rest)

/-- `download(url, out_dir, skip_file_num)`: creates the output directory
(idempotently), computes the chapter urls to process via the slice of
`process_urls`, and runs the per-chapter loop. -/
def download (dir_already_there : Bool) (all_story_urls : List String)
    (skip_file_num : Int) (chErr : String → Option PyError) :
    Except PyError (List String) :=
  match makedirs dir_already_there with
  | .error e => .error e
  | .ok _ => run_chapters chErr (process_urls all_story_urls skip_file_num)

/-- The body of `_fetch_content_create_pdf`'s `try:` block, after the
images were downloaded: `raise ValueError("None of download file")` when
fewer than one file was downloaded, otherwise the exception (if any) of
`images_to_pdf`. -/
def fetch_body_err (decodable : String → Bool)
    (jpg_filepaths : List String) : Option PyError :=
  if jpg_filepaths.length < 1 then some (.valueError "None of download file")
  else (images_to_pdf decodable jpg_filepaths).err

/-- Outcome of one `_fetch_content_create_pdf` pass: the exception that
propagates out of it (none on normal completion), and whether
`shutil.rmtree(tempdir)` ran, removing the scratch directory and every
file still inside it. -/
structure ChapterResult where
  err : Option PyError
  tempdirRemoved : Bool
deriving DecidableEq, Repr

/-- `_fetch_content_create_pdf(url, out_dir)` from the point the scratch
directory is created (`tempdir = tempfile.mkdtemp()`), taking the
trimmed page-image urls `jpgs_href` as input.  The `try:` block downloads
the images and assembles the PDF; the `finally:` block executes
`print(f"save completed \x7bpdf_filename\x7d")` and then
`shutil.rmtree(tempdir)`.  When zero images were downloaded, the
`ValueError` is raised before `pdf_filename` is assigned, so the
`print` in `finally:` raises `UnboundLocalError` (replacing the in-flight
exception) and `shutil.rmtree` never runs: the scratch directory is not
removed on that exit path.  On every other path `pdf_filename` is bound,
the `print` succeeds and `rmtree` removes the scratch directory. -/
def fetch_content_create_pdf (resp : String → Nat)
    (fname : String → String) (decodable : String → Bool)
    (jpgs_href : List String) : ChapterResult :=
  let jpg_filepaths := download_images resp fname jpgs_href
  if 1 ≤ jpg_filepaths.length then
    { err := fetch_body_err decodable jpg_filepaths, tempdirRemoved := true }
  else
    { err := some .unboundLocalError, tempdirRemoved := false }

/-- `_cut(pages)` of `Mangakoma01NetDownloader`: `pages[1:-1]`, dropping
the first and last entry (strip both ends). -/
def cut {α : Type} (pages : List α) : List α :=
  (pages.drop 1).dropLast

end Mangakoma01NetDownloader

namespace MangakomaOrgDownloader

/-- `_cut(pages)` of `MangakomaOrgDownloader`: `pages[1:]`, dropping the
first entry (strip leading). -/
def cut {α : Type} (pages : List α) : List α :=
  pages.drop 1

end MangakomaOrgDownloader

namespace MangakomaOnlDownloader

/-- The rendered markup of the mangakoma.onl chapter page, abstracted to
the results of the two css queries `_get_story_urls` performs:
the `select.select-chapter option` elements, and, when the
`div.modal-body.chapter-list.chapter` element is present, the `href`
attributes of its `a` descendants (in document order). -/
structure OnlSoup where
  selectChapterOptions : List OptionTag
  modalChapterAnchors : Option (List String)
deriving DecidableEq, Repr

/-- `_cut(pages)` of `MangakomaOnlDownloader`: returns `pages` unchanged
(no-op). -/
def cut {α : Type} (pages : List α) : List α :=
  pages

/-- `_get_story_urls(soup)` of `MangakomaOnlDownloader`: when the
primary selector `select.select-chapter option` yields more than one
element, their `value` attributes are returned; otherwise the modal
chapter list is consulted — absent (`None`, falsy) it raises
`ValueError`, present it returns the `href` of every anchor in it. -/
def get_story_urls (soup : OnlSoup) : Except PyError (List String) :=
  let options := soup.selectChapterOptions
  if options.length > 1 then
    .ok (options.map OptionTag.value)
  else
    match soup.modalChapterAnchors with
    | none => .error (.valueError "invalid chapter_list : None")
    | some atags => .ok atags

end MangakomaOnlDownloader

/-- Python `url.startswith(p)`: does the character sequence of `p`
prefix the character sequence of `url`? -/
def startswith (url p : String) : Bool :=
  p.data.isPrefixOf url.data

/-- The downloader selection of `main()`: the url is matched against the
three fixed origin prefixes in order; an unmatched url raises
`ValueError(f"Invalid URL \x7burl\x7d")`. -/
def selectDownloader (url : String) : Except PyError Adapter :=
  if startswith url "https://mangakoma.org/" then .ok .mangakomaOrg
  else if startswith url "https://mangakoma01.net/" then .ok .mangakoma01Net
  else if startswith url "https://mangakoma.onl/manga/" then .ok .mangakomaOnl
  else .error (.valueError ("Invalid URL " ++ url))

/-- `main()`: select the downloader from the url, then run
`raw.download(...)` (all three classes inherit the same `download`
implementation).  On an unmatched url the `ValueError` propagates and no
download is attempted. -/
def main (url : String) (dir_already_there : Bool)
    (all_story_urls : List String) (skip : Int)
    (chErr : String → Option PyError) : Except PyError (List String) :=
  match selectDownloader url with
  | .error e => .error e
  | .ok _ =>
    Mangakoma01NetDownloader.download dir_already_there all_story_urls
      skip chErr

/-! ## Helper lemmas -/

/-- For a natural skip count `k`, the slice of `download` keeps the
first `length - k` entries of the (newest-first) chapter list and
reverses them. -/
lemma process_urls_natCast (urls : List String) (k : Nat) :
    Mangakoma01NetDownloader.process_urls urls (k : Int)
      = (urls.take (urls.length - k)).reverse := by
  unfold Mangakoma01NetDownloader.process_urls sliceTo
  by_cases hk : k = 0
  · subst hk; simp
  · have h1 : (k : Int) * (-1) ≠ 0 := by simp [hk]
    rw [if_neg h1]
    have h2 : ¬ (0 ≤ (k : Int) * (-1)) := by omega
    rw [if_neg h2]
    have h3 : (-((k : Int) * (-1))).toNat = k := by omega
    rw [h3]

/-- For a negative skip count `-k` (`k > 0`), the slice of `download`
keeps the first `k` entries of the (newest-first) chapter list and
reverses them. -/
lemma process_urls_negCast (urls : List String) (k : Nat) (hk : 0 < k) :
    Mangakoma01NetDownloader.process_urls urls (-(k : Int))
      = (urls.take k).reverse := by
  unfold Mangakoma01NetDownloader.process_urls sliceTo
  have h1 : -(k : Int) * (-1) ≠ 0 := by omega
  rw [if_neg h1]
  have h2 : (0 ≤ -(k : Int) * (-1)) := by omega
  rw [if_pos h2]
  have h3 : (-(k : Int) * (-1)).toNat = k := by omega
  rw [h3]

/-- `download_images` returns exactly the (renamed) links whose fetch
returned status 200, in their original relative order. -/
lemma download_images_eq_filter_map (resp : String → Nat)
    (fname : String → String) (links : List String) :
    download_images resp fname links
      = (links.filter (fun l => resp l == 200)).map fname := by
  induction links with
  | nil => rfl
  | cons l ls ih =>
    unfold download_images fetch_image
    by_cases h : resp l = 200
    · simp [h, ih]
    · simp [h, ih]

/-! ## Claim theorems -/

/-- C1, counterexample: the claim's own concrete instance fails — with
the newest-first list `[c5, c4, c3, c2, c1]` and `skip_count = 2`,
`download` does not process `c1, c2, c3`.  (It processes `c3, c4, c5`:
the slice `all_story_urls[:-2]` drops the *last* two entries of the
newest-first list, which are the two oldest chapters.) -/
theorem skip_two_does_not_drop_newest :
    ¬ (Mangakoma01NetDownloader.process_urls
        ["c5", "c4", "c3", "c2", "c1"] 2 = ["c1", "c2", "c3"]) := by
  decide

/-- C1, amended: for every newest-first chapter list of `N` entries and
every `skip_count = k` with `0 ≤ k < N`, `download` keeps all but the
`k` *oldest* chapters (the last `k` entries of the newest-first list)
and processes the remainder oldest-to-newest; for
`[c5, c4, c3, c2, c1]` with `skip_count = 2` it processes exactly
`c3, c4, c5` in that order. -/
theorem skip_drops_oldest_oldest_first :
    (∀ (urls : List String) (k : Nat), k < urls.length →
      Mangakoma01NetDownloader.process_urls urls (k : Int)
        = (urls.take (urls.length - k)).reverse) ∧
    Mangakoma01NetDownloader.process_urls ["c5", "c4", "c3", "c2", "c1"] 2
      = ["c3", "c4", "c5"] := by
  constructor
  · intro urls k _
    exact process_urls_natCast urls k
  · decide

/-- Witness for the C1 theorem at `urls = [b, a]`, `k = 1`. -/
theorem skip_drops_oldest_oldest_first_witness :
    Mangakoma01NetDownloader.process_urls ["b", "a"] ((1 : Nat) : Int)
      = ((["b", "a"] : List String).take
          ((["b", "a"] : List String).length - 1)).reverse :=
  skip_drops_oldest_oldest_first.1 ["b", "a"] 1 (by decide)

/-- C2, counterexample: with two navigation entries (values `c2, c1`,
newest first) and `skip_count = 1`, the first chapter processed is not
`c1` (the chapter immediately following the one most recent); the code
processes `[c2]`. -/
theorem first_processed_not_after_k_newest :
    ¬ ((Mangakoma01NetDownloader.process_urls
          (Mangakoma01NetDownloader.get_story_urls
            [OptionTag.mk "c2", OptionTag.mk "c1"]) 1).head?
        = some "c1") := by
  decide

/-- C2, amended: `_get_story_urls` returns exactly `N` references in the
site's native (newest-first) order; with `skip_count = 0` the processing
order is the exact reverse of that list; for `0 ≤ k < N` exactly
`N - k` chapters are processed, and the first one processed is the
navigation entry at index `N - 1 - k` (the `(k+1)`-th *oldest*
chapter), not the one following the `k` most recent. -/
theorem lister_counts_and_first_processed :
    (∀ options : List OptionTag,
      (Mangakoma01NetDownloader.get_story_urls options).length
        = options.length) ∧
    (∀ options : List OptionTag,
      Mangakoma01NetDownloader.process_urls
          (Mangakoma01NetDownloader.get_story_urls options) 0
        = (Mangakoma01NetDownloader.get_story_urls options).reverse) ∧
    (∀ (options : List OptionTag) (k : Nat), k < options.length →
      (Mangakoma01NetDownloader.process_urls
          (Mangakoma01NetDownloader.get_story_urls options)
          (k : Int)).length
        = options.length - k ∧
      (Mangakoma01NetDownloader.process_urls
          (Mangakoma01NetDownloader.get_story_urls options)
          (k : Int)).head?
        = (Mangakoma01NetDownloader.get_story_urls options)[options.length
            - 1 - k]?) := by
  refine ⟨fun options => ?_, fun options => ?_, fun options k hk => ?_⟩
  · simp [Mangakoma01NetDownloader.get_story_urls]
  · simp [Mangakoma01NetDownloader.process_urls]
  · have hx : (Mangakoma01NetDownloader.get_story_urls options).length
        = options.length := by
      simp [Mangakoma01NetDownloader.get_story_urls]
    rw [process_urls_natCast]
    constructor
    · rw [List.length_reverse, List.length_take]
      omega
    · rw [List.head?_reverse, List.getLast?_eq_getElem?]
      have hlen : ((Mangakoma01NetDownloader.get_story_urls options).take
          ((Mangakoma01NetDownloader.get_story_urls options).length
            - k)).length
          = (Mangakoma01NetDownloader.get_story_urls options).length - k := by
        rw [List.length_take]
        omega
      rw [hlen, List.getElem?_take]
      rw [if_pos (by omega)]
      congr 1
      omega

/-- Witness for the C2 theorem at two navigation entries and `k = 1`. -/
theorem lister_counts_and_first_processed_witness :
    (Mangakoma01NetDownloader.process_urls
        (Mangakoma01NetDownloader.get_story_urls
          [OptionTag.mk "c2", OptionTag.mk "c1"])
        ((1 : Nat) : Int)).length
      = ([OptionTag.mk "c2", OptionTag.mk "c1"] : List OptionTag).length
          - 1 ∧
    (Mangakoma01NetDownloader.process_urls
        (Mangakoma01NetDownloader.get_story_urls
          [OptionTag.mk "c2", OptionTag.mk "c1"])
        ((1 : Nat) : Int)).head?
      = (Mangakoma01NetDownloader.get_story_urls
          [OptionTag.mk "c2", OptionTag.mk "c1"])[([OptionTag.mk "c2",
            OptionTag.mk "c1"] : List OptionTag).length - 1 - 1]? :=
  lister_counts_and_first_processed.2.2
    [OptionTag.mk "c2", OptionTag.mk "c1"] 1 (by decide)

/-- C3, failing-input evaluation: when every image fetch fails (here a
single source answered with 404), `download_images` returns `[]`, the
`ValueError` is raised before `pdf_filename` is assigned, the `finally:`
block's `print` raises `UnboundLocalError`, and `shutil.rmtree(tempdir)`
never runs — the per-chapter scratch directory is *not* removed on this
exit path, contradicting the claim that it is removed on every exit
path. -/
theorem zero_downloads_leaves_tempdir :
    Mangakoma01NetDownloader.fetch_content_create_pdf (fun _ => 404)
        (fun u => u) (fun _ => true) ["https://example.com/p1.jpg"]
      = { err := some .unboundLocalError, tempdirRemoved := false } := by
  rfl

/-- C4: `download_images` returns exactly the files of the sources whose
retrieval yields status 200, in their original relative order, without
raising on a non-success response; its length is the number of
successes; when every source fails the result is empty and the caller's
body (`_fetch_content_create_pdf`) then raises
`ValueError("None of download file")`. -/
theorem download_images_successes_in_order :
    (∀ (resp : String → Nat) (fname : String → String)
        (links : List String),
      download_images resp fname links
        = (links.filter (fun l => resp l == 200)).map fname) ∧
    (∀ (resp : String → Nat) (fname : String → String)
        (links : List String),
      (download_images resp fname links).length
        = links.countP (fun l => resp l == 200)) ∧
    (∀ (resp : String → Nat) (fname : String → String)
        (links : List String) (decodable : String → Bool),
      (∀ l ∈ links, resp l ≠ 200) →
      download_images resp fname links = [] ∧
      Mangakoma01NetDownloader.fetch_body_err decodable
          (download_images resp fname links)
        = some (.valueError "None of download file")) := by
  refine ⟨fun resp fname links => download_images_eq_filter_map _ _ _,
    fun resp fname links => ?_, fun resp fname links decodable h => ?_⟩
  · rw [download_images_eq_filter_map, List.length_map,
      List.countP_eq_length_filter]
  · have hnil : download_images resp fname links = [] := by
      rw [download_images_eq_filter_map]
      have : links.filter (fun l => resp l == 200) = [] := by
        rw [List.filter_eq_nil_iff]
        intro a ha
        simp [h a ha]
      rw [this]
      rfl
    refine ⟨hnil, ?_⟩
    rw [hnil]
    rfl

/-- Witness for the C4 theorem: a single source that answers 404. -/
theorem download_images_successes_in_order_witness :
    download_images (fun _ => 404) (fun u => u) ["x"] = [] ∧
    Mangakoma01NetDownloader.fetch_body_err (fun _ => true)
        (download_images (fun _ => 404) (fun u => u) ["x"])
      = some (.valueError "None of download file") :=
  download_images_successes_in_order.2.2 (fun _ => 404) (fun u => u)
    ["x"] (fun _ => true) (by decide)

/-- C5: for an input list whose decodable entries number `K`,
`images_to_pdf` writes a document whose pages are exactly the decodable
files in their original relative order (so exactly `K` pages), skipping
each undecodable file non-fatally; for `K = 0` it raises `IndexError`
and produces no document. -/
theorem images_to_pdf_pages_spec :
    ∀ (decodable : String → Bool) (files : List String),
      ((files.filter decodable).length = 0 →
        images_to_pdf decodable files
          = { doc := none, filesRemoved := false,
              err := some .indexError }) ∧
      (0 < (files.filter decodable).length →
        images_to_pdf decodable files
          = { doc := some (files.filter decodable), filesRemoved := true,
              err := none }) := by
  intro decodable files
  constructor
  · intro h
    have hnil : files.filter decodable = [] := List.length_eq_zero.mp h
    simp [images_to_pdf, hnil]
  · intro h
    have hne : (files.filter decodable).isEmpty = false := by
      rcases hf : files.filter decodable with _ | ⟨a, t⟩
      · rw [hf] at h; simp at h
      · rfl
    simp [images_to_pdf, hne]

/-- Witness for the C5 theorem: an all-undecodable input and an
all-decodable input. -/
theorem images_to_pdf_pages_spec_witness :
    images_to_pdf (fun _ => false) ["a"]
      = { doc := none, filesRemoved := false, err := some .indexError } ∧
    images_to_pdf (fun _ => true) ["a", "b"]
      = { doc := some ((["a", "b"] : List String).filter (fun _ => true)),
          filesRemoved := true, err := none } :=
  ⟨(images_to_pdf_pages_spec (fun _ => false) ["a"]).1 (by decide),
   (images_to_pdf_pages_spec (fun _ => true) ["a", "b"]).2 (by decide)⟩

/-- C6: the trim of each site variant is deterministic (a pure total
function) and, for an input of length `M`, yields `M - 2` entries for
`pages[1:-1]` (mangakoma01.net, strip both ends) when `M ≥ 2`, `M - 1`
entries for `pages[1:]` (mangakoma.org, strip leading) when `M ≥ 1`,
and `M` entries for the no-op (mangakoma.onl); below the minimum it
yields the empty list and never raises. -/
theorem cut_length_spec :
    (∀ (s : List String), 2 ≤ s.length →
      (Mangakoma01NetDownloader.cut s).length = s.length - 2) ∧
    (∀ (s : List String), s.length < 2 →
      Mangakoma01NetDownloader.cut s = []) ∧
    (∀ (s : List String), 1 ≤ s.length →
      (MangakomaOrgDownloader.cut s).length = s.length - 1) ∧
    (∀ (s : List String), s.length < 1 →
      MangakomaOrgDownloader.cut s = []) ∧
    (∀ (s : List String),
      (MangakomaOnlDownloader.cut s).length = s.length) := by
  refine ⟨fun s _ => ?_, fun s h => ?_, fun s _ => ?_, fun s h => ?_,
    fun s => rfl⟩
  · simp [Mangakoma01NetDownloader.cut]
    omega
  · rcases s with _ | ⟨a, _ | ⟨b, t⟩⟩
    · rfl
    · rfl
    · exact absurd h (by simp)
  · simp [MangakomaOrgDownloader.cut]
  · have : s = [] := List.length_eq_zero.mp (by omega)
    simp [this, MangakomaOrgDownloader.cut]

/-- Witness for the C6 theorem at concrete lists of each relevant
length. -/
theorem cut_length_spec_witness :
    (Mangakoma01NetDownloader.cut
        (["a", "b", "c"] : List String)).length
      = (["a", "b", "c"] : List String).length - 2 ∧
    Mangakoma01NetDownloader.cut (["a"] : List String) = [] ∧
    (MangakomaOrgDownloader.cut (["a", "b"] : List String)).length
      = (["a", "b"] : List String).length - 1 ∧
    MangakomaOrgDownloader.cut ([] : List String) = [] :=
  ⟨cut_length_spec.1 ["a", "b", "c"] (by decide),
   cut_length_spec.2.1 ["a"] (by decide),
   cut_length_spec.2.2.1 ["a", "b"] (by decide),
   cut_length_spec.2.2.2.1 [] (by decide)⟩

/-- C7, counterexample: the strip-leading trim (`pages[1:]`,
mangakoma.org) is not idempotent — on `["a", "b"]` one application
yields `["b"]`, a second application yields `[]`. -/
theorem cut_not_idempotent_cex :
    ¬ (MangakomaOrgDownloader.cut
        (MangakomaOrgDownloader.cut (["a", "b"] : List String))
      = MangakomaOrgDownloader.cut (["a", "b"] : List String)) := by
  decide

/-- C7, amended: only the no-op variant's trim is idempotent; applying
the strip-leading trim twice leaves `M - 2` entries and applying the
strip-both-ends trim twice leaves `M - 4` entries, so re-applying
either of those removes legitimate content — the pipeline applies trim
exactly once per chapter fetch. -/
theorem cut_idempotency_status :
    (∀ (s : List String),
      MangakomaOnlDownloader.cut (MangakomaOnlDownloader.cut s)
        = MangakomaOnlDownloader.cut s) ∧
    (∀ (s : List String),
      (MangakomaOrgDownloader.cut (MangakomaOrgDownloader.cut s)).length
        = s.length - 2) ∧
    (∀ (s : List String),
      (Mangakoma01NetDownloader.cut
          (Mangakoma01NetDownloader.cut s)).length
        = s.length - 4) := by
  refine ⟨fun s => rfl, fun s => ?_, fun s => ?_⟩
  · simp [MangakomaOrgDownloader.cut]
  · simp [Mangakoma01NetDownloader.cut]
    omega

/-- C8: chapter-url extraction for mangakoma.onl is a two-path lookup:
when the primary `select.select-chapter option` selector yields more
than one entry the option values are returned; at most one entry falls
back to the modal chapter list, raising `ValueError` when that element
is absent and returning the `href` of every anchor in it otherwise. -/
theorem onl_story_urls_two_path :
    ∀ (soup : MangakomaOnlDownloader.OnlSoup),
      (1 < soup.selectChapterOptions.length →
        MangakomaOnlDownloader.get_story_urls soup
          = .ok (soup.selectChapterOptions.map OptionTag.value)) ∧
      (soup.selectChapterOptions.length ≤ 1 →
        (soup.modalChapterAnchors = none →
          MangakomaOnlDownloader.get_story_urls soup
            = .error (.valueError "invalid chapter_list : None")) ∧
        (∀ atags, soup.modalChapterAnchors = some atags →
          MangakomaOnlDownloader.get_story_urls soup = .ok atags)) := by
  intro soup
  constructor
  · intro h
    simp [MangakomaOnlDownloader.get_story_urls, h]
  · intro h
    have h2 : ¬ (soup.selectChapterOptions.length > 1) := by omega
    constructor
    · intro hn
      simp [MangakomaOnlDownloader.get_story_urls, h2, hn]
    · intro atags ha
      simp [MangakomaOnlDownloader.get_story_urls, h2, ha]

/-- Witness for the C8 theorem: two options (primary path), no options
with the modal absent (error path), and no options with the modal
present (fallback path). -/
theorem onl_story_urls_two_path_witness :
    MangakomaOnlDownloader.get_story_urls
        ⟨[OptionTag.mk "c2", OptionTag.mk "c1"], none⟩
      = .ok ([OptionTag.mk "c2", OptionTag.mk "c1"].map OptionTag.value) ∧
    MangakomaOnlDownloader.get_story_urls ⟨[], none⟩
      = .error (.valueError "invalid chapter_list : None") ∧
    MangakomaOnlDownloader.get_story_urls ⟨[], some ["u1"]⟩
      = .ok ["u1"] :=
  ⟨(onl_story_urls_two_path
      ⟨[OptionTag.mk "c2", OptionTag.mk "c1"], none⟩).1 (by decide),
   ((onl_story_urls_two_path ⟨[], none⟩).2 (by decide)).1 rfl,
   ((onl_story_urls_two_path ⟨[], some ["u1"]⟩).2 (by decide)).2
     ["u1"] rfl⟩

/-- C9: the site adapter is selected solely by matching the url against
the three fixed origin prefixes (in the order `main` tests them), and a
url matching none of them raises `ValueError("Invalid URL ...")` with no
download attempted. -/
theorem url_dispatch_fixed_origins :
    ∀ (url : String) (b : Bool) (urls : List String) (skip : Int)
        (chErr : String → Option PyError),
      (startswith url "https://mangakoma.org/" = true →
        selectDownloader url = .ok .mangakomaOrg) ∧
      (startswith url "https://mangakoma.org/" = false →
        startswith url "https://mangakoma01.net/" = true →
        selectDownloader url = .ok .mangakoma01Net) ∧
      (startswith url "https://mangakoma.org/" = false →
        startswith url "https://mangakoma01.net/" = false →
        startswith url "https://mangakoma.onl/manga/" = true →
        selectDownloader url = .ok .mangakomaOnl) ∧
      (startswith url "https://mangakoma.org/" = false →
        startswith url "https://mangakoma01.net/" = false →
        startswith url "https://mangakoma.onl/manga/" = false →
        selectDownloader url
          = .error (.valueError ("Invalid URL " ++ url)) ∧
        main url b urls skip chErr
          = .error (.valueError ("Invalid URL " ++ url))) := by
  intro url b urls skip chErr
  refine ⟨fun h1 => ?_, fun h1 h2 => ?_, fun h1 h2 h3 => ?_,
    fun h1 h2 h3 => ?_⟩
  · simp [selectDownloader, h1]
  · simp [selectDownloader, h1, h2]
  · simp [selectDownloader, h1, h2, h3]
  · constructor
    · simp [selectDownloader, h1, h2, h3]
    · simp [main, selectDownloader, h1, h2, h3]

/-- Witness for the C9 theorem: one url per prefix and one unmatched
url. -/
theorem url_dispatch_fixed_origins_witness :
    selectDownloader "https://mangakoma.org/manga/t"
      = .ok .mangakomaOrg ∧
    selectDownloader "https://mangakoma01.net/t" = .ok .mangakoma01Net ∧
    selectDownloader "https://mangakoma.onl/manga/t"
      = .ok .mangakomaOnl ∧
    (selectDownloader "https://example.com/"
        = .error (.valueError ("Invalid URL " ++ "https://example.com/")) ∧
      main "https://example.com/" true [] 0 (fun _ => none)
        = .error
            (.valueError ("Invalid URL " ++ "https://example.com/"))) :=
  ⟨(url_dispatch_fixed_origins "https://mangakoma.org/manga/t" true [] 0
      (fun _ => none)).1 (by decide),
   (url_dispatch_fixed_origins "https://mangakoma01.net/t" true [] 0
      (fun _ => none)).2.1 (by decide) (by decide),
   (url_dispatch_fixed_origins "https://mangakoma.onl/manga/t" true [] 0
      (fun _ => none)).2.2.1 (by decide) (by decide) (by decide),
   (url_dispatch_fixed_origins "https://example.com/" true [] 0
      (fun _ => none)).2.2.2 (by decide) (by decide) (by decide)⟩

/-- C10: an out-of-range skip raises no error on the value itself —
`skip_count ≥ N` makes `download` process zero chapters and return
normally after creating the output directory (whatever the per-chapter
behavior would have been), and `skip_count = -k` with `0 < k ≤ N` makes
the slice keep exactly the `k` newest chapters (the first `k` entries of
the newest-first list), processed oldest-first. -/
theorem out_of_range_skip_behavior :
    (∀ (urls : List String) (s : Nat) (b : Bool)
        (chErr : String → Option PyError),
      urls.length ≤ s →
      Mangakoma01NetDownloader.download b urls (s : Int) chErr
        = .ok []) ∧
    (∀ (urls : List String) (k : Nat), 0 < k → k ≤ urls.length →
      Mangakoma01NetDownloader.process_urls urls (-(k : Int))
        = (urls.take k).reverse) := by
  constructor
  · intro urls s b chErr hs
    show Mangakoma01NetDownloader.run_chapters chErr
        (Mangakoma01NetDownloader.process_urls urls (s : Int)) = .ok []
    rw [process_urls_natCast]
    have h0 : urls.length - s = 0 := by omega
    rw [h0]
    rfl
  · intro urls k hk _
    exact process_urls_negCast urls k hk

/-- Witness for the C10 theorem: a skip of 2 on one chapter, and a skip
of -1 on two chapters. -/
theorem out_of_range_skip_behavior_witness :
    Mangakoma01NetDownloader.download true ["c1"] ((2 : Nat) : Int)
        (fun _ => none)
      = .ok [] ∧
    Mangakoma01NetDownloader.process_urls ["c2", "c1"]
        (-((1 : Nat) : Int))
      = ((["c2", "c1"] : List String).take 1).reverse :=
  ⟨out_of_range_skip_behavior.1 ["c1"] 2 true (fun _ => none)
      (by decide),
   out_of_range_skip_behavior.2 ["c2", "c1"] 1 (by decide) (by decide)⟩

end RawDownloader
